import Mathlib

/-!
Verification development for the `architecturebot` repository.

The repository is a chat bot that forwards a building photo to a remote
vision model and returns a critique string.  The component with non-trivial
control flow is the vision request orchestrator
(`architecturebot/ai/vision.py`): a size precondition, a result cache keyed
by a fingerprint of the normalized image, a three-rung prompt/model fallback
ladder, and a four-attempt retry wrapper with exponential backoff and
text-based error classification.  The quota key store
(`architecturebot/auth/keys.py`) and the chat handler
(`architecturebot/main.py`) are embedded as well.

Embedding conventions:
* Image payloads are `List Nat` (byte sequences); only their length and the
  abstract fingerprint are ever inspected by the orchestrator.
* The external collaborators (PIL preprocessing, SHA-256 fingerprinting, the
  remote OpenAI endpoint, the key file on disk) are parameters: the image
  normalizer and fingerprint are arbitrary functions, the remote endpoint is
  an oracle describing, for every attempt of the retry wrapper, whether the
  wrapped ladder invocation completes (and with which per-request responses),
  times out, raises a permission error, or raises a generic exception.
* Python exceptions become an explicit error result; Python's mutable module
  state (the response cache, the key store file) is threaded explicitly.
* Each run returns, besides the result and the updated cache, an observation
  trace: the outbound remote requests made, the backoff delays slept (in
  seconds), and the number of wrapper attempts executed.
-/

/-- ASCII lowering of a string, one character at a time.  Models the use of
Python's `str.lower()` in the error classifiers of `vision.py` (the
classifier keywords are all ASCII, so only ASCII case folding is ever
relevant). -/
def lowerStr (s : String) : String :=
  ⟨s.data.map Char.toLower⟩

/-- Containment scan over lists: does `needle` occur as a contiguous
subsequence of the list?  Models Python's `in` operator on strings. -/
def infixScan [BEq α] (needle : List α) : List α → Bool
  | [] => needle.isEmpty
  | a :: rest => needle.isPrefixOf (a :: rest) || infixScan needle rest

/-- `containsSub needle hay` models Python's `needle in hay` on strings. -/
def containsSub (needle hay : String) : Bool :=
  infixScan needle.data hay.data

/-- The subset of `config.Settings` consumed by the vision orchestrator
(`config.py`): the primary model name and the two configured detail levels.
Reference defaults: model `gpt-4o-mini`, details `low`/`low`. -/
structure VisionSettings where
  openai_model : String
  vision_detail_primary : String
  vision_detail_fallback : String

/-- The long primary prompt `USER_INSTRUCTIONS` of `vision.py`. -/
def USER_INSTRUCTIONS : String :=
  "Проанализируй здание на фотографии как опытный архитектор-критик, используя критерии из Архитектурного Брифа 3.0. "
  ++ "Дай объективную экспертную оценку в формате естественного профессионального анализа.\n\n"
  ++ "Напиши критический анализ объёмом 4-6 абзацев, который включает:\n"
  ++ "• Характеристику объекта — стилистика, образ массинга, роль в контексте\n"
  ++ "• Оценку композиционных решений через призму принципов формообразования:\n"
  ++ "  - Амплитудность силуэта (выразительность скайлайна)\n"
  ++ "  - Силуэтные завершения (качество проработки верха)\n"
  ++ "  - Неплоскостность фасада (объёмность, скульптурность, отказ от монотонности)\n"
  ++ "  - Пропорции и масштаб (человеческий масштаб, цельность)\n"
  ++ "  - Скульптурность футпринта (если виден план/композиция)\n"
  ++ "  - Харизматичные детали — \x27красная собачка\x27 (ТОЛЬКО если действительно применены)\n"
  ++ "• Анализ качества фасадных решений — материалы, пластика, деталировка, ритм\n"
  ++ "• Особенности, которые работают на образ или, наоборот, его ослабляют\n\n"
  ++ "Завершай анализ итоговой оценкой в формате:\n"
  ++ "Архитектурная оценка: X/10\n\n"
  ++ "Критерии итоговой оценки:\n"
  ++ "• 8-10 — сильный проект: выразительный массинг, качественная пластика, цельная композиция, вклад в среду\n"
  ++ "• 6-7 — добротная архитектура с отдельными удачными приёмами, но есть просчёты в композиции или деталировке\n"
  ++ "• 4-5 — посредственный проект: шаблонные решения, слабая проработка массинга, монотонность\n"
  ++ "• 1-3 — проблемный объект: серьёзные композиционные ошибки, отсутствие образа, плохое качество\n\n"
  ++ "После оценки добавь:\n"
  ++ "Общее ревью от Критика:\n"
  ++ "Напиши 3-6 ёмких предложений с экспертным взглядом \x27крутого\x27 архитектора-критика. "
  ++ "Подмечай профессиональные детали и нюансы, которые не видны обычному человеку: "
  ++ "тонкости композиционных решений, скрытые приёмы, профессиональные просчёты или, наоборот, мастерские находки. "
  ++ "Пиши остро, точно, без воды — как пишет эксперт высокого уровня, который видит суть за формой. "
  ++ "Это должен быть концентрированный профессиональный вердикт.\n\n"
  ++ "Принципы анализа:\n"
  ++ "- Используй профессиональную терминологию из брифа (массинг, футпринт, амплитудность, неплоскостность)\n"
  ++ "- Оценивай КАЧЕСТВО и УМЕСТНОСТЬ принципов формообразования, а не просто их наличие\n"
  ++ "- Пиши как эксперт, который даёт объективное мнение, а не заполняет чек-лист\n"
  ++ "- Не используй формальные заголовки типа «**Композиционное качество**» в основном тексте — пиши текстом\n"
  ++ "- Фокусируйся на значимых для данного проекта принципах формообразования\n"
  ++ "- \x27Красная собачка\x27 не обязательна — упоминай только если видишь яркий харизматичный акцент\n"
  ++ "- Добавляй экспертную глубину, избегай констатации очевидного\n"
  ++ "- Разные по качеству проекты должны получать разные оценки\n"
  ++ "- В \x27Общем ревью от Критика\x27 покажи максимальную экспертизу — замечай то, что скрыто от непрофессионала\n"
  ++ "- При недостатке данных отмечай это, не додумывай"

/-- The short fallback prompt `USER_INSTRUCTIONS_FALLBACK` of `vision.py`. -/
def USER_INSTRUCTIONS_FALLBACK : String :=
  "Кратко и по делу опиши архитектуру здания на фото: стиль/образ, фасад (материалы, ритм), контекст, итоговая оценка 1–10. "
  ++ "Не более 3–4 коротких предложений."

/-- Message of the `ValueError` raised when the input is below the minimum
byte threshold (`vision.py`, line 159). -/
def INSUFFICIENT_MSG : String :=
  "Недостаточно данных изображения. Попробуйте отправить фото в более высоком качестве."

/-- Message of the `ValueError` raised on a `content_filter` finish reason
(`vision.py`, line 234). -/
def CONTENT_FILTER_MSG : String :=
  "Изображение не прошло проверку безопасности модели. Попробуйте другое фото фасада."

/-- Message of the `ValueError` raised after exhausting all retries on
timeout (`vision.py`, line 268). -/
def TIMEOUT_MSG : String :=
  "Превышено время ожидания ответа модели. Попробуйте ещё раз позже."

/-- Message of the `ValueError` raised on a region/account restriction
(`vision.py`, lines 274-278). -/
def RESTRICTED_MSG : String :=
  "К сожалению, доступ к модели ограничен для вашего региона или аккаунта. "
  ++ "Варианты: использовать аккаунт/организацию с поддерживаемым регионом, "
  ++ "либо Azure OpenAI в разрешённом регионе, либо обратиться в поддержку OpenAI."

/-- The fixed sentinel string returned when all three ladder rungs yield
empty bodies (`vision.py`, line 254).  A normal result, not an error. -/
def EMPTY_SENTINEL : String :=
  "Не удалось сформировать оценку. Попробуйте другое фото (фронтальный фасад, без бликов и шума)."

/-- Message of the unreachable `RuntimeError` after the retry loop
(`vision.py`, line 297). -/
def RUNTIME_MSG : String :=
  "Не удалось получить ответ от модели. Попробуйте позже."

/-- One response of the remote endpoint to an outbound chat completion:
the message content (`None` or a string) and the finish reason. -/
structure RemoteResponse where
  content : Option String
  finish : Option String

/-- One outbound request variant of the attempt ladder: the `RequestAttempt`
record of the spec, i.e. the `(model, instructions, detail)` arguments of
`_request` in `vision.py`. -/
structure Attempt where
  model : String
  instructions : String
  detail : String
deriving DecidableEq

/-- Behaviour of one invocation of the wrapped ladder call
`asyncio.wait_for(_call(), timeout=60)`, as seen by the retry loop of
`analyze_building_image`:
* `completes resp` — the ladder runs to completion; `resp n` is the remote
  endpoint's response to the `n`-th request issued inside this invocation;
* `timeout` — the invocation raises `asyncio.TimeoutError`;
* `permDenied msg` — the client raises `PermissionDeniedError` with text `msg`;
* `raises msg` — the client raises some other exception with text `msg`. -/
inductive AttemptEnv where
  | completes (resp : Nat → RemoteResponse)
  | timeout
  | permDenied (msg : String)
  | raises (msg : String)

/-- Result of one completed run of the inner `_call` ladder: either a string
value was returned, or the `content_filter` `ValueError` was raised. -/
inductive CallResult where
  | ok (text : String)
  | contentRejected

/-- Classified failure of `analyze_building_image`, as observed by callers:
`valueError` for every `ValueError` (insufficient input, content rejection,
timeout exhaustion, access restriction), `permissionDenied` for a re-raised
`PermissionDeniedError`, `other` for any other re-raised exception. -/
inductive VisionError where
  | valueError (msg : String)
  | permissionDenied (msg : String)
  | other (msg : String)
deriving DecidableEq

/-- Overall outcome of `analyze_building_image`: a critique string or a
classified error. -/
inductive AnalyzeResult where
  | ok (text : String)
  | err (e : VisionError)
deriving DecidableEq

/-- The in-process result cache `_response_cache` of `vision.py`: a mapping
from fingerprint to critique string.  Insertion prepends and lookup takes
the first match, which coincides observationally with Python's dict
assignment and lookup. -/
abbrev Cache := List (String × String)

/-- Lookup in the result cache (`h in _response_cache` / `_response_cache[h]`). -/
def cacheLookup (c : Cache) (h : String) : Option String :=
  (c.find? (fun p => p.1 == h)).map (fun p => p.2)

/-- Insertion into the result cache (`_response_cache[h] = text`). -/
def cacheInsert (c : Cache) (h text : String) : Cache :=
  (h, text) :: c

/-- Observable effects of one `analyze_building_image` run: the result, the
final cache, the outbound remote requests issued (in order), the backoff
delays slept (in seconds, in order), and the number of retry-wrapper
attempts executed. -/
structure RunOut where
  result : AnalyzeResult
  cache : Cache
  requests : List Attempt
  sleeps : List Nat
  attempts : Nat
deriving DecidableEq

/-- `is_rate` classification of `vision.py` line 284:
`"rate" in message.lower() or "429" in message`. -/
def is_rate (message : String) : Bool :=
  containsSub "rate" (lowerStr message) || containsSub "429" message

/-- `is_transient` classification of `vision.py` lines 285-287:
any of the transient indicator words occurs in `message.lower()`. -/
def is_transient (message : String) : Bool :=
  ["timeout", "temporarily", "unavailable", "connection", "retry"].any
    (fun word => containsSub word (lowerStr message))

/-- Region/account restriction markers checked on a `PermissionDeniedError`
(`vision.py`, line 272). -/
def restriction_markers (message : String) : Bool :=
  containsSub "unsupported_country_region_territory" (lowerStr message)
  || containsSub "not supported" (lowerStr message)

/-- The alternate model of ladder rung 3 (`vision.py`, line 247):
`"gpt-4o" if "mini" in settings.openai_model else "gpt-4o-mini"`. -/
def alt_model (st : VisionSettings) : String :=
  if containsSub "mini" st.openai_model then "gpt-4o" else "gpt-4o-mini"

/-- Ladder rung 1: primary model, primary prompt, primary detail
(`vision.py`, line 232). -/
def ladderAttempt1 (st : VisionSettings) : Attempt :=
  ⟨st.openai_model, USER_INSTRUCTIONS, st.vision_detail_primary⟩

/-- Ladder rung 2: primary model, fallback prompt, fallback detail
(`vision.py`, line 241). -/
def ladderAttempt2 (st : VisionSettings) : Attempt :=
  ⟨st.openai_model, USER_INSTRUCTIONS_FALLBACK, st.vision_detail_fallback⟩

/-- Ladder rung 3: alternate model, fallback prompt, hard-coded high detail
(`vision.py`, line 249). -/
def ladderAttempt3 (st : VisionSettings) : Attempt :=
  ⟨alt_model st, USER_INSTRUCTIONS_FALLBACK, "high"⟩

/-- Python's `str.strip()`: drop whitespace from both ends (modelled for
the ASCII whitespace characters recognised by `Char.isWhitespace`). -/
def stripStr (s : String) : String :=
  ⟨((s.data.dropWhile Char.isWhitespace).reverse.dropWhile
      Char.isWhitespace).reverse⟩

/-- The content extraction of `_request` (`vision.py`, line 229):
`(content.strip() if content else "")`. -/
def stripContent (r : RemoteResponse) : String :=
  match r.content with
  | some c => stripStr c
  | none => ""

/-- One completed run of the inner ladder `_call` (`vision.py`, lines
231-254), with `resp n` the endpoint's response to the `n`-th request:
rung 1 short-circuits to `contentRejected` on a `content_filter` finish
reason; the first rung with a non-empty (stripped) body stores it in the
cache and returns it; three empty bodies return the fixed sentinel,
uncached.  Also returns the updated cache and the requests issued. -/
def runCall (st : VisionSettings) (resp : Nat → RemoteResponse) (h : String)
    (cache : Cache) : CallResult × Cache × List Attempt :=
  if (resp 0).finish = some "content_filter" then
    (.contentRejected, cache, [ladderAttempt1 st])
  else if stripContent (resp 0) ≠ "" then
    (.ok (stripContent (resp 0)), cacheInsert cache h (stripContent (resp 0)),
      [ladderAttempt1 st])
  else if stripContent (resp 1) ≠ "" then
    (.ok (stripContent (resp 1)), cacheInsert cache h (stripContent (resp 1)),
      [ladderAttempt1 st, ladderAttempt2 st])
  else if stripContent (resp 2) ≠ "" then
    (.ok (stripContent (resp 2)), cacheInsert cache h (stripContent (resp 2)),
      [ladderAttempt1 st, ladderAttempt2 st, ladderAttempt3 st])
  else
    (.ok EMPTY_SENTINEL, cache,
      [ladderAttempt1 st, ladderAttempt2 st, ladderAttempt3 st])

/-- The retry loop `for attempt in range(4)` of `analyze_building_image`
(`vision.py`, lines 257-297), iterating over the remaining attempt indices
with the current backoff delay:
* a completed ladder run returning a value ends the loop;
* a `content_filter` rejection is a `ValueError` that falls into the broad
  `except Exception` handler, where its message is classified (it matches no
  transient indicator, so it is re-raised without retry);
* `asyncio.TimeoutError` is retried while `attempt < 3`, then converted to
  the timeout `ValueError`;
* `PermissionDeniedError` is never retried: converted to the restriction
  `ValueError` when its text matches the markers, otherwise re-raised;
* any other exception is retried while `attempt < 3` if classified
  rate-limited or transient, otherwise re-raised;
* before each retried attempt the current delay is slept and then doubled;
* an empty index list corresponds to the unreachable `RuntimeError`. -/
def retryLoop (st : VisionSettings) (env : Nat → AttemptEnv) (h : String) :
    List Nat → Nat → Cache → RunOut
  | [], _, cache => ⟨.err (.other RUNTIME_MSG), cache, [], [], 0⟩
  | attempt :: rest, delay, cache =>
    match env attempt with
    | .completes resp =>
      match runCall st resp h cache with
      | (.ok text, cache2, reqs) => ⟨.ok text, cache2, reqs, [], 1⟩
      | (.contentRejected, cache2, reqs) =>
        if attempt < 3 ∧
            (is_rate CONTENT_FILTER_MSG || is_transient CONTENT_FILTER_MSG) = true then
          match retryLoop st env h rest (delay * 2) cache2 with
          | ⟨r, c, q, sl, n⟩ => ⟨r, c, reqs ++ q, delay :: sl, n + 1⟩
        else
          ⟨.err (.valueError CONTENT_FILTER_MSG), cache2, reqs, [], 1⟩
    | .timeout =>
      if attempt < 3 then
        match retryLoop st env h rest (delay * 2) cache with
        | ⟨r, c, q, sl, n⟩ => ⟨r, c, q, delay :: sl, n + 1⟩
      else
        ⟨.err (.valueError TIMEOUT_MSG), cache, [], [], 1⟩
    | .permDenied msg =>
      if restriction_markers msg = true then
        ⟨.err (.valueError RESTRICTED_MSG), cache, [], [], 1⟩
      else
        ⟨.err (.permissionDenied msg), cache, [], [], 1⟩
    | .raises msg =>
      if attempt < 3 ∧ (is_rate msg || is_transient msg) = true then
        match retryLoop st env h rest (delay * 2) cache with
        | ⟨r, c, q, sl, n⟩ => ⟨r, c, q, delay :: sl, n + 1⟩
      else
        ⟨.err (.other msg), cache, [], [], 1⟩

/-- `analyze_building_image` (`vision.py`, lines 155-297).  `preprocess`
models `_preprocess_image` (the external image normalizer), `fingerprint`
models the SHA-256 hex digest of the processed bytes, `env` is the remote
endpoint oracle for the successive wrapper attempts.  Inputs below 10,000
bytes (or empty) fail immediately with the insufficient-input `ValueError`;
a cached fingerprint returns the cached string with no remote activity;
otherwise the retry loop runs over attempts `[0, 1, 2, 3]` with initial
delay 1 second. -/
def analyze_building_image (st : VisionSettings) (env : Nat → AttemptEnv)
    (preprocess : List Nat → List Nat) (fingerprint : List Nat → String)
    (cache : Cache) (image_bytes : List Nat) : RunOut :=
  if image_bytes.isEmpty ∨ image_bytes.length < 10000 then
    ⟨.err (.valueError INSUFFICIENT_MSG), cache, [], [], 0⟩
  else
    match cacheLookup cache (fingerprint (preprocess image_bytes)) with
    | some cached => ⟨.ok cached, cache, [], [], 0⟩
    | none =>
      retryLoop st env (fingerprint (preprocess image_bytes)) [0, 1, 2, 3] 1 cache

/-- The unlimited-quota sentinel `UNLIMITED = -1` of `auth/keys.py`. -/
def UNLIMITED : Int := -1

/-- The `ApiKey` dataclass of `auth/keys.py`.  `created_at` models the
`time.time()` stamp (its value is never inspected). -/
structure ApiKey where
  key : String
  remaining : Int
  created_at : Nat
deriving DecidableEq

/-- The key store `keys.json` of `auth/keys.py`, modelled as an association
list.  Insertion prepends and lookup takes the first match, matching the
observable behaviour of the JSON-dict store. -/
abbrev KeyStore := List (String × ApiKey)

/-- Lookup of a key record in the store (`store.get(key)`). -/
def storeLookup (store : KeyStore) (k : String) : Option ApiKey :=
  (store.find? (fun p => p.1 == k)).map (fun p => p.2)

/-- Overwriting insertion into the store (`store[key] = info`). -/
def storeInsert (store : KeyStore) (k : String) (v : ApiKey) : KeyStore :=
  (k, v) :: store

/-- `get_key_info` of `auth/keys.py` (the load-then-get read path). -/
def get_key_info (store : KeyStore) (key : String) : Option ApiKey :=
  storeLookup store key

/-- `decrement_quota` of `auth/keys.py`, lines 58-70.  A missing key raises
`KeyError` (modelled as `.error`); an unlimited key returns the sentinel
without touching the store; a key with `remaining <= 0` returns `0` without
saving; otherwise `remaining` is decreased by one, the store is saved, and
the new remaining value is returned. -/
def decrement_quota (store : KeyStore) (key : String) :
    Except String (KeyStore × Int) :=
  match storeLookup store key with
  | none => .error "Invalid key"
  | some info =>
    if info.remaining = UNLIMITED then
      .ok (store, UNLIMITED)
    else if info.remaining ≤ 0 then
      .ok (store, 0)
    else
      .ok (storeInsert store key { info with remaining := info.remaining - 1 },
        info.remaining - 1)

/-- `generate_keys` of `auth/keys.py`, lines 34-42.  The fresh random key
strings (`secrets.token_urlsafe`) and the timestamp are parameters; each new
key is stored with the given quota and the list of new keys is returned. -/
def generate_keys (store : KeyStore) (new_keys : List String) (quota : Int)
    (now : Nat) : KeyStore × List String :=
  (new_keys.foldl (fun s k => storeInsert s k ⟨k, quota, now⟩) store, new_keys)

/-- `generate_unlimited_key` of `auth/keys.py`, lines 45-50. -/
def generate_unlimited_key (store : KeyStore) (new_key : String) (now : Nat) :
    KeyStore × String :=
  (storeInsert store new_key ⟨new_key, UNLIMITED, now⟩, new_key)

/-- Invariant of the key store: every stored record's remaining counter is
the unlimited sentinel or non-negative. -/
def StoreInv (store : KeyStore) : Prop :=
  ∀ p ∈ store, p.2.remaining = UNLIMITED ∨ 0 ≤ p.2.remaining

/-- The user-visible reply of the photo handler in `main.py`, abstracted
from message formatting: which guard fired, or the critique text together
with the post-decrement remaining value, or which error rendering ran
(the `ValueError` text verbatim, or the generic high-load message). -/
inductive Reply where
  | needKey
  | invalidKey
  | quotaExhausted
  | notImage
  | success (text : String) (remaining : Int)
  | errorText (msg : String)
  | genericError
deriving DecidableEq

/-- Observable outcome of one `handle_photo_or_image` invocation: the reply,
the final key store, the final result cache, and the number of
`decrement_quota` invocations performed. -/
structure HandlerOut where
  reply : Reply
  store : KeyStore
  cache : Cache
  decCalls : Nat
deriving DecidableEq

/-- `handle_photo_or_image` of `main.py`, lines 87-150 (chat-action and
message-delivery IO omitted).  Guards: missing/empty bound key, unknown key,
exhausted quota, missing/empty image bytes.  Then `analyze_building_image`
runs; only on its success is `decrement_quota` invoked (exactly once); a
`ValueError` is rendered verbatim, any other error as the generic message. -/
def handle_photo_or_image (st : VisionSettings) (env : Nat → AttemptEnv)
    (preprocess : List Nat → List Nat) (fingerprint : List Nat → String)
    (cache : Cache) (store : KeyStore)
    (api_key : Option String) (image_bytes : Option (List Nat)) : HandlerOut :=
  match api_key with
  | none => ⟨.needKey, store, cache, 0⟩
  | some key =>
    if key = "" then ⟨.needKey, store, cache, 0⟩
    else
      match get_key_info store key with
      | none => ⟨.invalidKey, store, cache, 0⟩
      | some info =>
        if info.remaining ≠ UNLIMITED ∧ info.remaining ≤ 0 then
          ⟨.quotaExhausted, store, cache, 0⟩
        else
          match image_bytes with
          | none => ⟨.notImage, store, cache, 0⟩
          | some bytes =>
            if bytes.isEmpty then ⟨.notImage, store, cache, 0⟩
            else
              match analyze_building_image st env preprocess fingerprint cache bytes with
              | ⟨.ok text, cache2, _, _, _⟩ =>
                match decrement_quota store key with
                | .ok (store2, remaining) =>
                  ⟨.success text remaining, store2, cache2, 1⟩
                | .error _ => ⟨.genericError, store, cache2, 1⟩
              | ⟨.err (.valueError msg), cache2, _, _, _⟩ =>
                ⟨.errorText msg, store, cache2, 0⟩
              | ⟨.err (.permissionDenied _), cache2, _, _, _⟩ =>
                ⟨.genericError, store, cache2, 0⟩
              | ⟨.err (.other _), cache2, _, _, _⟩ =>
                ⟨.genericError, store, cache2, 0⟩

/-- Modelled from the spec (§4, retry/backoff wrapper; §8): the transient
indicators the specification lists for claim C7 — a message containing
`"429"`, a rate-limit signal, `"unavailable"`, `"connection"`,
`"temporarily"` or `"retry"`, matched case-insensitively.  Stated separately
from the source classifiers `is_rate`/`is_transient` so that the claim can
be checked as a refinement: every spec-listed indicator is classified
transient by the code. -/
def spec_transient_indicator (message : String) : Bool :=
  containsSub "429" message
  || containsSub "rate" (lowerStr message)
  || containsSub "unavailable" (lowerStr message)
  || containsSub "connection" (lowerStr message)
  || containsSub "temporarily" (lowerStr message)
  || containsSub "retry" (lowerStr message)

/-- A payload of at least 10,000 bytes passes the size guard of
`analyze_building_image`. -/
theorem size_guard_false (b : List Nat) (hlen : 10000 ≤ b.length) :
    ¬(b.isEmpty = true ∨ b.length < 10000) := by
  intro hguard
  rcases hguard with hempty | hshort
  · cases b with
    | nil => simp at hlen
    | cons a l => simp at hempty
  · omega

/-- With a sufficiently large payload and an uncached fingerprint,
`analyze_building_image` is exactly the retry loop over attempts
`[0, 1, 2, 3]` with initial delay 1. -/
theorem analyze_not_cached (st : VisionSettings) (env : Nat → AttemptEnv)
    (preprocess : List Nat → List Nat) (fingerprint : List Nat → String)
    (cache : Cache) (b : List Nat)
    (hlen : 10000 ≤ b.length)
    (hmiss : cacheLookup cache (fingerprint (preprocess b)) = none) :
    analyze_building_image st env preprocess fingerprint cache b =
      retryLoop st env (fingerprint (preprocess b)) [0, 1, 2, 3] 1 cache := by
  unfold analyze_building_image
  rw [if_neg (size_guard_false b hlen), hmiss]

/-- With a sufficiently large payload and a cached fingerprint,
`analyze_building_image` returns the cached string with no remote requests,
no sleeps and zero retry-wrapper attempts, leaving the cache unchanged. -/
theorem analyze_cache_hit (st : VisionSettings) (env : Nat → AttemptEnv)
    (preprocess : List Nat → List Nat) (fingerprint : List Nat → String)
    (cache : Cache) (b : List Nat) (s : String)
    (hlen : 10000 ≤ b.length)
    (hhit : cacheLookup cache (fingerprint (preprocess b)) = some s) :
    analyze_building_image st env preprocess fingerprint cache b =
      ⟨.ok s, cache, [], [], 0⟩ := by
  unfold analyze_building_image
  rw [if_neg (size_guard_false b hlen), hhit]

/-- A completed ladder run in which every remote response strips to the
empty string (and rung 1 is not content-filtered) issues exactly the three
rungs in order, returns the sentinel, and leaves the cache unchanged. -/
theorem runCall_all_empty (st : VisionSettings) (resp : Nat → RemoteResponse)
    (h : String) (cache : Cache)
    (hresp : ∀ n, stripContent (resp n) = "")
    (hfin : (resp 0).finish ≠ some "content_filter") :
    runCall st resp h cache =
      (.ok EMPTY_SENTINEL, cache,
        [ladderAttempt1 st, ladderAttempt2 st, ladderAttempt3 st]) := by
  unfold runCall
  rw [if_neg hfin]
  simp [hresp]

/-- A completed ladder run whose first response is not content-filtered and
strips to a non-empty string returns that string after rung 1 alone,
inserting it into the cache. -/
theorem runCall_first_text (st : VisionSettings) (resp : Nat → RemoteResponse)
    (h : String) (cache : Cache) (t : String)
    (hfin : (resp 0).finish ≠ some "content_filter")
    (htext : stripContent (resp 0) = t)
    (hne : t ≠ "") :
    runCall st resp h cache =
      (.ok t, cacheInsert cache h t, [ladderAttempt1 st]) := by
  unfold runCall
  rw [if_neg hfin, htext]
  simp [hne]

/-- A completed ladder run whose first response carries the
`content_filter` finish reason rejects after rung 1 alone, leaving the
cache unchanged. -/
theorem runCall_content_filtered (st : VisionSettings)
    (resp : Nat → RemoteResponse) (h : String) (cache : Cache)
    (hfin : (resp 0).finish = some "content_filter") :
    runCall st resp h cache = (.contentRejected, cache, [ladderAttempt1 st]) := by
  unfold runCall
  rw [if_pos hfin]

/-- The content-filter `ValueError` message matches neither the rate-limit
nor the transient classifier, so the retry wrapper never retries it. -/
theorem content_msg_not_transient :
    (is_rate CONTENT_FILTER_MSG || is_transient CONTENT_FILTER_MSG) = false := by
  decide

/-- Every transient indicator listed by the specification is classified as
rate-limited or transient by the code's `is_rate`/`is_transient`. -/
theorem spec_transient_sound (m : String)
    (hspec : spec_transient_indicator m = true) :
    (is_rate m || is_transient m) = true := by
  unfold spec_transient_indicator at hspec
  unfold is_rate is_transient
  simp only [Bool.or_eq_true] at hspec ⊢
  simp only [List.any_cons, List.any_nil, Bool.or_eq_true, Bool.or_false]
  tauto

/-- `decrement_quota` succeeds on every key present in the store. -/
theorem decrement_quota_ok (store : KeyStore) (key : String) (info : ApiKey)
    (hkey : storeLookup store key = some info) :
    ∃ p, decrement_quota store key = .ok p := by
  unfold decrement_quota
  rw [hkey]
  by_cases hu : info.remaining = UNLIMITED
  · exact ⟨(store, UNLIMITED), by simp [hu]⟩
  · by_cases hz : info.remaining ≤ 0
    · exact ⟨(store, 0), by simp [hu, hz]⟩
    · exact ⟨(storeInsert store key { info with remaining := info.remaining - 1 },
        info.remaining - 1), by simp [hu, hz]⟩

/-- Reference settings: the defaults of `config.py`
(`gpt-4o-mini`, detail `low`/`low`). -/
def stDefault : VisionSettings :=
  ⟨"gpt-4o-mini", "low", "low"⟩

/-- A concrete payload exactly at the 10,000-byte threshold. -/
def bBig : List Nat := List.replicate 10000 0

/-- A concrete fingerprint function mapping every payload to `"k"`. -/
def fpConst : List Nat → String := fun _ => "k"

/-- A remote endpoint response with empty body and no finish reason. -/
def respEmptyBody : Nat → RemoteResponse := fun _ => ⟨none, none⟩

/-- An endpoint oracle whose every wrapped invocation completes with empty
bodies on every request. -/
def envEmptyBodies : Nat → AttemptEnv := fun _ => .completes respEmptyBody

/-- A remote endpoint response delivering the body `"ok"` with a normal
finish reason. -/
def respOkBody : Nat → RemoteResponse := fun _ => ⟨some "ok", some "stop"⟩

/-- An endpoint oracle whose every wrapped invocation completes with the
body `"ok"` on the first request. -/
def envOkBody : Nat → AttemptEnv := fun _ => .completes respOkBody

/-- An endpoint oracle whose every wrapped invocation exceeds the overall
timeout. -/
def envTimeoutAll : Nat → AttemptEnv := fun _ => AttemptEnv.timeout

/-- The concrete payload `bBig` satisfies the size precondition. -/
theorem bBig_len : 10000 ≤ bBig.length := by
  rw [bBig, List.length_replicate]

/-- Full run on an uncached fingerprint against an endpoint whose first
wrapper attempt completes with empty bodies throughout: exactly the three
ladder rungs are issued in order, the sentinel is returned as a normal
result in a single wrapper attempt with no backoff, and the cache is left
unchanged. -/
theorem analyze_all_empty (st : VisionSettings) (env : Nat → AttemptEnv)
    (preprocess : List Nat → List Nat) (fingerprint : List Nat → String)
    (cache : Cache) (b : List Nat) (resp : Nat → RemoteResponse)
    (hlen : 10000 ≤ b.length)
    (hmiss : cacheLookup cache (fingerprint (preprocess b)) = none)
    (henv : env 0 = .completes resp)
    (hresp : ∀ n, stripContent (resp n) = "")
    (hfin : (resp 0).finish ≠ some "content_filter") :
    analyze_building_image st env preprocess fingerprint cache b =
      ⟨.ok EMPTY_SENTINEL, cache,
        [ladderAttempt1 st, ladderAttempt2 st, ladderAttempt3 st], [], 1⟩ := by
  rw [analyze_not_cached st env preprocess fingerprint cache b hlen hmiss]
  have hcall :=
    runCall_all_empty st resp (fingerprint (preprocess b)) cache hresp hfin
  simp only [retryLoop, henv, hcall]

/-- Full run on an uncached fingerprint against an endpoint whose first
wrapper attempt completes with a non-empty first body: the result is the
stripped body of rung 1, inserted in the cache, after a single request and
a single wrapper attempt. -/
theorem analyze_first_text (st : VisionSettings) (env : Nat → AttemptEnv)
    (preprocess : List Nat → List Nat) (fingerprint : List Nat → String)
    (cache : Cache) (b : List Nat) (resp : Nat → RemoteResponse) (t : String)
    (hlen : 10000 ≤ b.length)
    (hmiss : cacheLookup cache (fingerprint (preprocess b)) = none)
    (henv : env 0 = .completes resp)
    (hfin : (resp 0).finish ≠ some "content_filter")
    (htext : stripContent (resp 0) = t)
    (hne : t ≠ "") :
    analyze_building_image st env preprocess fingerprint cache b =
      ⟨.ok t, cacheInsert cache (fingerprint (preprocess b)) t,
        [ladderAttempt1 st], [], 1⟩ := by
  rw [analyze_not_cached st env preprocess fingerprint cache b hlen hmiss]
  have hcall :=
    runCall_first_text st resp (fingerprint (preprocess b)) cache t hfin htext hne
  simp only [retryLoop, henv, hcall]

/-- A remote endpoint response with empty body and the `content_filter`
finish reason. -/
def respFiltered : Nat → RemoteResponse := fun _ => ⟨none, some "content_filter"⟩

/-- An endpoint oracle whose every wrapped invocation completes with a
content-filtered first response. -/
def envFiltered : Nat → AttemptEnv := fun _ => .completes respFiltered

/-- Claim C1: when the remote endpoint returns an empty body on every call
(and no content-safety rejection), `analyze_building_image` attempts exactly
the three ladder rungs in the fixed order — primary model with the long
primary prompt at the primary detail, primary model with the short fallback
prompt at the fallback detail, alternate model with the fallback prompt at
high detail — returns the fixed sentinel string as a normal result, and
leaves the result cache without an entry for the fingerprint. -/
theorem claim_C1 (st : VisionSettings) (env : Nat → AttemptEnv)
    (preprocess : List Nat → List Nat) (fingerprint : List Nat → String)
    (cache : Cache) (b : List Nat) (resp : Nat → RemoteResponse)
    (hlen : 10000 ≤ b.length)
    (hmiss : cacheLookup cache (fingerprint (preprocess b)) = none)
    (henv : env 0 = .completes resp)
    (hresp : ∀ n, stripContent (resp n) = "")
    (hfin : (resp 0).finish ≠ some "content_filter") :
    analyze_building_image st env preprocess fingerprint cache b =
      ⟨.ok EMPTY_SENTINEL, cache,
        [ladderAttempt1 st, ladderAttempt2 st, ladderAttempt3 st], [], 1⟩ ∧
    cacheLookup
      (analyze_building_image st env preprocess fingerprint cache b).cache
      (fingerprint (preprocess b)) = none := by
  have hmain := analyze_all_empty st env preprocess fingerprint cache b resp
    hlen hmiss henv hresp hfin
  exact ⟨hmain, by rw [hmain]; exact hmiss⟩

/-- Witness for C1 at the reference settings, an all-empty endpoint, the
threshold-size payload and an empty cache. -/
theorem claim_C1_witness :
    analyze_building_image stDefault envEmptyBodies id fpConst [] bBig =
      ⟨.ok EMPTY_SENTINEL, [],
        [ladderAttempt1 stDefault, ladderAttempt2 stDefault,
          ladderAttempt3 stDefault], [], 1⟩ ∧
    cacheLookup
      (analyze_building_image stDefault envEmptyBodies id fpConst [] bBig).cache
      (fpConst (id bBig)) = none :=
  claim_C1 stDefault envEmptyBodies id fpConst [] bBig respEmptyBody
    bBig_len rfl rfl (fun _ => rfl) (by simp [respEmptyBody])

/-- Claim C2: when every wrapped ladder invocation exceeds the overall
timeout, `analyze_building_image` executes exactly 4 wrapper attempts with
backoff delays 1, 2 and 4 seconds between them, then fails with the timeout
`ValueError`. -/
theorem claim_C2 (st : VisionSettings) (env : Nat → AttemptEnv)
    (preprocess : List Nat → List Nat) (fingerprint : List Nat → String)
    (cache : Cache) (b : List Nat)
    (hlen : 10000 ≤ b.length)
    (hmiss : cacheLookup cache (fingerprint (preprocess b)) = none)
    (henv : ∀ n, env n = AttemptEnv.timeout) :
    analyze_building_image st env preprocess fingerprint cache b =
      ⟨.err (.valueError TIMEOUT_MSG), cache, [], [1, 2, 4], 4⟩ := by
  rw [analyze_not_cached st env preprocess fingerprint cache b hlen hmiss]
  simp [retryLoop, henv]

/-- Witness for C2 at the reference settings and an always-timing-out
endpoint. -/
theorem claim_C2_witness :
    analyze_building_image stDefault envTimeoutAll id fpConst [] bBig =
      ⟨.err (.valueError TIMEOUT_MSG), [], [], [1, 2, 4], 4⟩ :=
  claim_C2 stDefault envTimeoutAll id fpConst [] bBig bBig_len rfl (fun _ => rfl)

/-- Claim C3: every input below the 10,000-byte threshold (including the
empty input) fails immediately with the insufficient-input `ValueError`,
with no remote request, no sleep and zero wrapper attempts. -/
theorem claim_C3 (st : VisionSettings) (env : Nat → AttemptEnv)
    (preprocess : List Nat → List Nat) (fingerprint : List Nat → String)
    (cache : Cache) (b : List Nat)
    (hshort : b.length < 10000) :
    analyze_building_image st env preprocess fingerprint cache b =
      ⟨.err (.valueError INSUFFICIENT_MSG), cache, [], [], 0⟩ := by
  unfold analyze_building_image
  rw [if_pos (Or.inr hshort)]

/-- Witness for C3 at the empty input. -/
theorem claim_C3_witness :
    ([] : List Nat).length < 10000 ∧
    analyze_building_image stDefault envEmptyBodies id fpConst [] [] =
      ⟨.err (.valueError INSUFFICIENT_MSG), [], [], [], 0⟩ :=
  ⟨by decide, claim_C3 stDefault envEmptyBodies id fpConst [] [] (by decide)⟩

/-- Claim C4: a content-safety finish reason on the first ladder rung makes
`analyze_building_image` fail with the content-rejection `ValueError` after
that single request: rungs 2 and 3 are not attempted, and the retry wrapper
performs exactly one attempt with no backoff sleep. -/
theorem claim_C4 (st : VisionSettings) (env : Nat → AttemptEnv)
    (preprocess : List Nat → List Nat) (fingerprint : List Nat → String)
    (cache : Cache) (b : List Nat) (resp : Nat → RemoteResponse)
    (hlen : 10000 ≤ b.length)
    (hmiss : cacheLookup cache (fingerprint (preprocess b)) = none)
    (henv : env 0 = .completes resp)
    (hfin : (resp 0).finish = some "content_filter") :
    analyze_building_image st env preprocess fingerprint cache b =
      ⟨.err (.valueError CONTENT_FILTER_MSG), cache, [ladderAttempt1 st], [], 1⟩ := by
  rw [analyze_not_cached st env preprocess fingerprint cache b hlen hmiss]
  have hcall :=
    runCall_content_filtered st resp (fingerprint (preprocess b)) cache hfin
  simp [retryLoop, henv, hcall, content_msg_not_transient]

/-- Witness for C4 at the reference settings and an endpoint whose first
response is content-filtered. -/
theorem claim_C4_witness :
    analyze_building_image stDefault envFiltered id fpConst [] bBig =
      ⟨.err (.valueError CONTENT_FILTER_MSG), [], [ladderAttempt1 stDefault],
        [], 1⟩ :=
  claim_C4 stDefault envFiltered id fpConst [] bBig respFiltered
    bBig_len rfl rfl rfl

/-- An endpoint oracle raising an exception with message `"429"` on every
wrapped invocation. -/
def envRaises429 : Nat → AttemptEnv := fun _ => .raises "429"

/-- An endpoint oracle raising a `PermissionDeniedError` carrying a region
restriction message on every wrapped invocation. -/
def envPermDenied : Nat → AttemptEnv :=
  fun _ => .permDenied "Country, region, or territory not supported."

/-- Counterexample to claim C5 as stated: against an endpoint that always
returns empty bodies, a first `analyze` call for a fresh fingerprint issues
the three ladder rungs, returns the sentinel and caches nothing, so a second
call for the same normalized bytes (starting from the first call's final
cache) invokes the remote model again — the three rungs are re-issued rather
than no remote call being made. -/
theorem claim_C5_counterexample :
    (analyze_building_image stDefault envEmptyBodies id fpConst
        (analyze_building_image stDefault envEmptyBodies id fpConst [] bBig).cache
        bBig).requests =
      [ladderAttempt1 stDefault, ladderAttempt2 stDefault,
        ladderAttempt3 stDefault] ∧
    (analyze_building_image stDefault envEmptyBodies id fpConst
        (analyze_building_image stDefault envEmptyBodies id fpConst [] bBig).cache
        bBig).requests ≠ [] := by
  have h1 := analyze_all_empty stDefault envEmptyBodies id fpConst [] bBig
    respEmptyBody bBig_len rfl rfl (fun _ => rfl) (by simp [respEmptyBody])
  refine ⟨?_, ?_⟩ <;> simp [h1]

/-- Claim C5 (amended): once an `analyze` call for a fingerprint has
completed with its result stored in the result cache, every later `analyze`
call for the same normalized bytes returns that cached string immediately —
no remote request, no sleep, zero wrapper attempts, cache unchanged —
whatever the remote endpoint would do.  (Runs that cache nothing — the
all-empty sentinel and every error path — are not covered: the code does
not cache those outcomes, and a later call invokes the remote model again.) -/
theorem claim_C5 (st : VisionSettings) (env env2 : Nat → AttemptEnv)
    (preprocess : List Nat → List Nat) (fingerprint : List Nat → String)
    (cache : Cache) (b : List Nat) (out : RunOut) (t : String)
    (hlen : 10000 ≤ b.length)
    (_hfirst : analyze_building_image st env preprocess fingerprint cache b = out)
    (hcached : cacheLookup out.cache (fingerprint (preprocess b)) = some t) :
    analyze_building_image st env2 preprocess fingerprint out.cache b =
      ⟨.ok t, out.cache, [], [], 0⟩ :=
  analyze_cache_hit st env2 preprocess fingerprint out.cache b t hlen hcached

/-- Witness for C5 (amended): a first call against an endpoint answering
`"ok"` caches the critique; the second call returns it with no remote
activity even against an always-timing-out endpoint. -/
theorem claim_C5_witness :
    analyze_building_image stDefault envTimeoutAll id fpConst [("k", "ok")] bBig =
      ⟨.ok "ok", [("k", "ok")], [], [], 0⟩ :=
  claim_C5 stDefault envOkBody envTimeoutAll id fpConst [] bBig
    ⟨.ok "ok", [("k", "ok")], [ladderAttempt1 stDefault], [], 1⟩ "ok"
    bBig_len
    (analyze_first_text stDefault envOkBody id fpConst [] bBig respOkBody "ok"
      bBig_len rfl rfl (by simp [respOkBody]) rfl (by decide))
    rfl

/-- Claim C6: an input (satisfying the size precondition) whose fingerprint
is already present in the result cache makes `analyze_building_image`
return the cached critique string — the very string stored by the earlier
run — with no remote request, no retry-wrapper attempt and no
classified-error path exercised, for any endpoint behaviour. -/
theorem claim_C6 (st : VisionSettings) (env : Nat → AttemptEnv)
    (preprocess : List Nat → List Nat) (fingerprint : List Nat → String)
    (cache : Cache) (b : List Nat) (s : String)
    (hlen : 10000 ≤ b.length)
    (hhit : cacheLookup cache (fingerprint (preprocess b)) = some s) :
    analyze_building_image st env preprocess fingerprint cache b =
      ⟨.ok s, cache, [], [], 0⟩ :=
  analyze_cache_hit st env preprocess fingerprint cache b s hlen hhit

/-- Witness for C6: a cached fingerprint is served from the cache even
against an always-timing-out endpoint. -/
theorem claim_C6_witness :
    analyze_building_image stDefault envTimeoutAll id fpConst [("k", "v")] bBig =
      ⟨.ok "v", [("k", "v")], [], [], 0⟩ :=
  claim_C6 stDefault envTimeoutAll id fpConst [("k", "v")] bBig "v" bBig_len rfl

/-- Claim C7: an error whose message carries one of the spec-listed
transient indicators (`"429"`, a rate-limit signal, `"unavailable"`,
`"connection"`, `"temporarily"`, `"retry"`, case-insensitive substring
match) is classified transient: the entire wrapped call is retried with the
exponential backoff schedule 1, 2, 4 seconds, up to 4 total attempts, and
after exhaustion the last such error is re-raised. -/
theorem claim_C7 (st : VisionSettings) (env : Nat → AttemptEnv)
    (preprocess : List Nat → List Nat) (fingerprint : List Nat → String)
    (cache : Cache) (b : List Nat) (msgs : Nat → String)
    (hlen : 10000 ≤ b.length)
    (hmiss : cacheLookup cache (fingerprint (preprocess b)) = none)
    (henv : ∀ n, env n = .raises (msgs n))
    (htr : ∀ n, spec_transient_indicator (msgs n) = true) :
    analyze_building_image st env preprocess fingerprint cache b =
      ⟨.err (.other (msgs 3)), cache, [], [1, 2, 4], 4⟩ := by
  rw [analyze_not_cached st env preprocess fingerprint cache b hlen hmiss]
  have hcode : ∀ n, (is_rate (msgs n) || is_transient (msgs n)) = true :=
    fun n => spec_transient_sound (msgs n) (htr n)
  simp [retryLoop, henv, hcode]

/-- Witness for C7: an endpoint failing every attempt with message `"429"`
is retried through the full backoff schedule and the error is re-raised. -/
theorem claim_C7_witness :
    analyze_building_image stDefault envRaises429 id fpConst [] bBig =
      ⟨.err (.other "429"), [], [], [1, 2, 4], 4⟩ :=
  claim_C7 stDefault envRaises429 id fpConst [] bBig (fun _ => "429")
    bBig_len rfl (fun _ => rfl)
    (by intro n; show spec_transient_indicator "429" = true; decide)

/-- Claim C8: a `PermissionDeniedError` is never retried — at whatever
wrapper attempt it occurs, the loop ends after that single attempt with no
backoff sleep — and is converted to the access-restriction `ValueError`
with the remediation message when its text matches the known restriction
markers, otherwise re-raised unchanged. -/
theorem claim_C8 (st : VisionSettings) (env : Nat → AttemptEnv)
    (preprocess : List Nat → List Nat) (fingerprint : List Nat → String)
    (cache : Cache) (b : List Nat) (msg : String)
    (hlen : 10000 ≤ b.length)
    (hmiss : cacheLookup cache (fingerprint (preprocess b)) = none)
    (henv : env 0 = .permDenied msg) :
    (∀ (env2 : Nat → AttemptEnv) (h2 : String) (attempt : Nat)
        (rest : List Nat) (delay : Nat) (c : Cache) (msg2 : String),
      env2 attempt = .permDenied msg2 →
      retryLoop st env2 h2 (attempt :: rest) delay c =
        if restriction_markers msg2 = true then
          ⟨.err (.valueError RESTRICTED_MSG), c, [], [], 1⟩
        else
          ⟨.err (.permissionDenied msg2), c, [], [], 1⟩) ∧
    analyze_building_image st env preprocess fingerprint cache b =
      (if restriction_markers msg = true then
        ⟨.err (.valueError RESTRICTED_MSG), cache, [], [], 1⟩
      else
        ⟨.err (.permissionDenied msg), cache, [], [], 1⟩) := by
  constructor
  · intro env2 h2 attempt rest delay c msg2 henv2
    simp only [retryLoop, henv2]
  · rw [analyze_not_cached st env preprocess fingerprint cache b hlen hmiss]
    simp only [retryLoop, henv]

/-- Witness for C8: a permission error whose text matches the restriction
markers becomes the access-restriction `ValueError` after a single attempt. -/
theorem claim_C8_witness :
    analyze_building_image stDefault envPermDenied id fpConst [] bBig =
      ⟨.err (.valueError RESTRICTED_MSG), [], [], [], 1⟩ := by
  have h := (claim_C8 stDefault envPermDenied id fpConst [] bBig
    "Country, region, or territory not supported." bBig_len rfl rfl).2
  rw [h, if_pos (by decide)]

/-- Claim C9: for a request that passes the handler's authorization and
image guards, the quota key is decremented exactly once when
`analyze_building_image` completes successfully — the handler's final store
is the result of a single `decrement_quota` application — and when
`analyze_building_image` fails with any error, `decrement_quota` is never
invoked and the store is unchanged. -/
theorem claim_C9 (st : VisionSettings) (env : Nat → AttemptEnv)
    (preprocess : List Nat → List Nat) (fingerprint : List Nat → String)
    (cache : Cache) (store : KeyStore) (key : String) (info : ApiKey)
    (bytes : List Nat)
    (hne : key ≠ "")
    (hkey : get_key_info store key = some info)
    (hquota : ¬(info.remaining ≠ UNLIMITED ∧ info.remaining ≤ 0))
    (hb : bytes.isEmpty = false) :
    (∀ t cache2 rq sl n,
      analyze_building_image st env preprocess fingerprint cache bytes =
        ⟨.ok t, cache2, rq, sl, n⟩ →
      ∃ store2 r,
        decrement_quota store key = .ok (store2, r) ∧
        handle_photo_or_image st env preprocess fingerprint cache store
            (some key) (some bytes) =
          ⟨.success t r, store2, cache2, 1⟩) ∧
    (∀ e cache2 rq sl n,
      analyze_building_image st env preprocess fingerprint cache bytes =
        ⟨.err e, cache2, rq, sl, n⟩ →
      (handle_photo_or_image st env preprocess fingerprint cache store
          (some key) (some bytes)).store = store ∧
      (handle_photo_or_image st env preprocess fingerprint cache store
          (some key) (some bytes)).decCalls = 0) := by
  have hkey2 : storeLookup store key = some info := hkey
  constructor
  · intro t cache2 rq sl n hrun
    obtain ⟨⟨store2, r⟩, hdec⟩ := decrement_quota_ok store key info hkey2
    refine ⟨store2, r, hdec, ?_⟩
    simp [handle_photo_or_image, hne, hkey, hquota, hb, hrun, hdec]
  · intro e cache2 rq sl n hrun
    cases e <;>
      simp [handle_photo_or_image, hne, hkey, hquota, hb, hrun]

/-- A concrete one-key store with 5 remaining uses. -/
def storeK : KeyStore := [("K", ApiKey.mk "K" 5 0)]

/-- Witness for C9: a successful analysis decrements the key `"K"` from 5
to 4 remaining and the handler's final store is exactly that single
decrement. -/
theorem claim_C9_witness :
    handle_photo_or_image stDefault envOkBody id fpConst [] storeK
        (some "K") (some bBig) =
      ⟨.success "ok" 4, ("K", ApiKey.mk "K" 4 0) :: storeK, [("k", "ok")], 1⟩ ∧
    decrement_quota storeK "K" =
      .ok (("K", ApiKey.mk "K" 4 0) :: storeK, 4) := by
  obtain ⟨store2, r, hdec, hout⟩ :=
    (claim_C9 stDefault envOkBody id fpConst [] storeK "K" (ApiKey.mk "K" 5 0)
        bBig (by decide) rfl (by decide) rfl).1
      "ok" [("k", "ok")] [ladderAttempt1 stDefault] [] 1
      (analyze_first_text stDefault envOkBody id fpConst [] bBig respOkBody "ok"
        bBig_len rfl rfl (by simp [respOkBody]) rfl (by decide))
  have heval : decrement_quota storeK "K" =
      .ok (("K", ApiKey.mk "K" 4 0) :: storeK, (4 : Int)) := rfl
  rw [heval] at hdec
  injection hdec with hpair
  injection hpair with h1 h2
  subst h1
  subst h2
  exact ⟨hout, heval⟩

/-- Claim C10: the quota-store invariant — every remaining counter is the
unlimited sentinel or non-negative — and its preservation:
`decrement_quota` on an unlimited key returns the sentinel without touching
the store; on a key with 0 remaining it returns 0 without decrementing
below zero; otherwise it decreases the counter by exactly one, preserving
the invariant (no counter ever becomes negative other than the sentinel);
and `generate_keys` with a non-negative quota preserves the invariant. -/
theorem claim_C10 (store : KeyStore) (key : String) (info : ApiKey)
    (hinv : StoreInv store)
    (hkey : storeLookup store key = some info) :
    (info.remaining = UNLIMITED →
      decrement_quota store key = .ok (store, UNLIMITED)) ∧
    (info.remaining = 0 → decrement_quota store key = .ok (store, 0)) ∧
    (0 < info.remaining →
      decrement_quota store key =
        .ok (storeInsert store key { info with remaining := info.remaining - 1 },
          info.remaining - 1) ∧
      StoreInv
        (storeInsert store key { info with remaining := info.remaining - 1 })) ∧
    (∀ (new_keys : List String) (quota : Int) (now : Nat), 0 ≤ quota →
      StoreInv (generate_keys store new_keys quota now).1) := by
  refine ⟨?_, ?_, ?_, ?_⟩
  · intro hu
    unfold decrement_quota
    rw [hkey]
    simp [hu]
  · intro hz
    unfold decrement_quota
    rw [hkey]
    have hu : info.remaining ≠ UNLIMITED := by
      rw [hz]; decide
    simp [hu, hz, UNLIMITED]
  · intro hpos
    have hu : info.remaining ≠ UNLIMITED := by
      show info.remaining ≠ (-1 : Int)
      omega
    have hz : ¬info.remaining ≤ 0 := by omega
    constructor
    · unfold decrement_quota
      rw [hkey]
      simp [hu, hz]
    · intro p hp
      rcases List.mem_cons.mp hp with h | h
      · rw [h]
        right
        show (0 : Int) ≤ info.remaining - 1
        omega
      · exact hinv p h
  · intro new_keys quota now hq
    have main : ∀ (ks : List String) (s : KeyStore), StoreInv s →
        StoreInv (ks.foldl (fun s2 k => storeInsert s2 k ⟨k, quota, now⟩) s) := by
      intro ks
      induction ks with
      | nil => intro s hs; exact hs
      | cons k ks ih =>
        intro s hs
        apply ih
        intro p hp
        rcases List.mem_cons.mp hp with h | h
        · rw [h]
          right
          exact hq
        · exact hs p h
    exact main new_keys store hinv

/-- A concrete store holding an unlimited key, an exhausted key and a key
with 3 remaining uses. -/
def storeSample : KeyStore :=
  [("A", ApiKey.mk "A" (-1) 0), ("B", ApiKey.mk "B" 0 0), ("C", ApiKey.mk "C" 3 0)]

/-- Witness for C10 at the key `"C"` with 3 remaining uses: the decrement
stores 2 and the invariant is preserved. -/
theorem claim_C10_witness :
    decrement_quota storeSample "C" =
      .ok (storeInsert storeSample "C" (ApiKey.mk "C" 2 0), 2) ∧
    StoreInv (storeInsert storeSample "C" (ApiKey.mk "C" 2 0)) :=
  (claim_C10 storeSample "C" (ApiKey.mk "C" 3 0)
      (by unfold StoreInv; decide) rfl).2.2.1 (by decide)
